import Mathlib

/-!
# Verification of the timer-state reconciliation engine (`src/services/timerService.ts`)

This file gives a shallow embedding of the `TimerService` class of the
timesheet-timer extension and proves properties of its operations.

Modelling conventions:
* Timestamps are rational numbers of epoch milliseconds (a JS `Date` /
  `Date.now()` value); hours and seconds reported by the backend are rationals.
* The mutable fields of the `TimerService` object are gathered in a record:
  `state` (the in-memory `TimerState`), `snapshot` (the five
  `workspaceState` keys written by `saveState`, read by `loadState` and
  erased by `clearState`), and `intervalActive` (whether `intervalId` is
  non-null, i.e. the one-second `setInterval` is scheduled).
* Each fallible remote call (`createTimesheetEntry`, `startTimer`,
  `stopTimer`, `getTimesheetEntry`, `getRunningTimer` on the Odoo side) is a
  parameter of type `Except Unit _`: the value the `await` would produce, or
  an exception.
* Each operation returns, besides the updated service record, the boolean
  the source returns, the list of remote calls it performed, the list of
  `notifyStateUpdate` publications it made (each publication invokes every
  registered callback with the published state), and the user-facing
  warning/error messages it showed.
* JavaScript truthiness is embedded explicitly where the source relies on
  it: a number is truthy iff non-zero, `null`/`undefined` are falsy, and a
  `Date` object is truthy iff non-null.
-/

/-- `TimesheetEntry` (src/odoo/timesheet.ts lines 3-13): optional fields are
`Option`, `unit_amount` is in hours. -/
structure TimesheetEntry where
  id : Option Nat
  name : String
  date : String
  unit_amount : ℚ
  project_id : Option Nat
  task_id : Option Nat
  employee_id : Option Nat
  account_id : Option Nat
  user_id : Option Nat
deriving DecidableEq, Repr

/-- `TimerState` (src/services/timerService.ts lines 5-10). `startTime` is a
`Date | null`, held as epoch milliseconds. -/
structure TimerState where
  isRunning : Bool
  startTime : Option ℚ
  entryId : Option Nat
  entry : Option TimesheetEntry
deriving DecidableEq, Repr

/-- The object returned by `OdooTimesheet.getRunningTimer`
(src/odoo/timesheet.ts lines 169-197): the timesheet entry's fields spread
together with `running_seconds` (the backend's `result.start || 0`). -/
structure RunningTimer where
  id : Option Nat
  name : String
  date : String
  unit_amount : ℚ
  project_id : Option Nat
  task_id : Option Nat
  employee_id : Option Nat
  account_id : Option Nat
  user_id : Option Nat
  running_seconds : ℚ
deriving DecidableEq, Repr

/-- The entry object a `RunningTimer` denotes when stored into
`state.entry` (`entry: runningTimer`, timerService.ts line 155). -/
def RunningTimer.toEntry (rt : RunningTimer) : TimesheetEntry :=
  { id := rt.id, name := rt.name, date := rt.date, unit_amount := rt.unit_amount,
    project_id := rt.project_id, task_id := rt.task_id, employee_id := rt.employee_id,
    account_id := rt.account_id, user_id := rt.user_id }

/-- The five `workspaceState` keys `timer_entryId`, `timer_startTime`,
`timer_projectId`, `timer_taskId`, `timer_description`
(timerService.ts lines 242-246 / 254-258 / 298-302). `none` is
`undefined`. -/
structure Snapshot where
  entryId : Option Nat
  startTime : Option ℚ
  projectId : Option Nat
  taskId : Option Nat
  description : Option String
deriving DecidableEq, Repr

/-- The mutable fields of a `TimerService` instance
(timerService.ts lines 12-18): `state`, the persisted workspace snapshot
behind `this.context`, and whether `this.intervalId` is non-null. -/
structure TimerService where
  state : TimerState
  snapshot : Snapshot
  intervalActive : Bool
deriving DecidableEq, Repr

/-- The `TimerState` installed by the constructor and by every transition to
stopped (timerService.ts lines 24-29, 116-121, 166-171). -/
def stoppedState : TimerState :=
  { isRunning := false, startTime := none, entryId := none, entry := none }

/-- All five workspace keys `undefined`, as produced by `clearState`. -/
def emptySnapshot : Snapshot :=
  { entryId := none, startTime := none, projectId := none, taskId := none, description := none }

/-- The constructor (timerService.ts lines 20-30): in-memory state starts
stopped and no interval is scheduled; the workspace snapshot is whatever the
persistent store already holds. -/
def mkTimerService (snap : Snapshot) : TimerService :=
  { state := stoppedState, snapshot := snap, intervalActive := false }

/-- JS truthiness of a nullable number (`entryId`, `runningTimer.id`):
`null`/`undefined` and `0` are falsy. -/
def jsTruthyNum : Option Nat → Bool
  | none => false
  | some n => n != 0

/-- JS `q || 0` on a number: `0` is falsy, so this is the identity on
rationals; kept explicit to mirror `runningTimer.running_seconds || 0`
(timerService.ts line 146). -/
def jsOrZero (q : ℚ) : ℚ :=
  if q = 0 then 0 else q

/-- The calls an engine operation makes on the remote backend. -/
inductive BackendCall where
  | createEntry
  | timerStart
  | timerStop
  | readEntry
  | queryRunning
deriving DecidableEq, Repr

/-- `stopUpdateInterval` (timerService.ts lines 230-235): cancels any
scheduled interval. -/
def stopUpdateInterval (s : TimerService) : TimerService :=
  { s with intervalActive := false }

/-- `startUpdateInterval` (timerService.ts lines 213-228): always cancels the
existing interval first, then schedules one iff the state is running. -/
def startUpdateInterval (s : TimerService) : TimerService :=
  { s with intervalActive := s.state.isRunning }

/-- The snapshot `saveState` writes (timerService.ts lines 242-246):
`entryId`, `startTime?.getTime()`, `entry?.project_id`, `entry?.task_id`,
`entry?.name`. -/
def snapshotOf (st : TimerState) : Snapshot :=
  { entryId := st.entryId,
    startTime := st.startTime,
    projectId := st.entry.bind (fun en => en.project_id),
    taskId := st.entry.bind (fun en => en.task_id),
    description := st.entry.map (fun en => en.name) }

/-- `saveState` (timerService.ts lines 237-247). -/
def saveState (s : TimerService) : TimerService :=
  { s with snapshot := snapshotOf s.state }

/-- `clearState` (timerService.ts lines 293-303). -/
def clearState (s : TimerService) : TimerService :=
  { s with snapshot := emptySnapshot }

/-- `getElapsedHours` (timerService.ts lines 189-196): `0` unless running
with a non-null `startTime`, else `(now − startTime) / (1000*60*60)`. -/
def getElapsedHours (st : TimerState) (now : ℚ) : ℚ :=
  if st.isRunning = true then
    match st.startTime with
    | some t0 => (now - t0) / (1000 * 60 * 60)
    | none => 0
  else 0

/-- `getState` (timerService.ts lines 185-187) returns a shallow copy
`{ ...this.state }`; as a pure value it is the state itself (object identity
is treated in the heap model below). -/
def getState (s : TimerService) : TimerState :=
  s.state

/-- The environment a `startTimer` call runs in: the authenticated session's
uid (`this.client.getSession()`), the results of the two remote calls, the
`Date.now()` at which the running state is installed, and today's date
string. -/
structure StartEnv where
  sessionUid : Option Nat
  createResult : Except Unit Nat
  startResult : Except Unit Bool
  now : ℚ
  today : String
deriving Repr

/-- What a `startTimer` call produces: the updated service, the returned
boolean, the remote calls performed, the `notifyStateUpdate` publications,
and the warning/error messages shown. -/
structure StartOut where
  service : TimerService
  ok : Bool
  calls : List BackendCall
  notes : List TimerState
  msgs : List String
deriving DecidableEq, Repr

/-- `startTimer` (timerService.ts lines 40-88). Rejects when already
running; otherwise creates the remote entry, starts the remote timer,
installs the running state, persists it, schedules the interval and fans
out. Any thrown error lands in the catch: the service is left unchanged and
`false` is returned. -/
def startTimer (s : TimerService) (env : StartEnv) (name : String)
    (projectId taskId : Option Nat) : StartOut :=
  if s.state.isRunning then
    { service := s, ok := false, calls := [], notes := [],
      msgs := ["Timer is already running"] }
  else
    match env.sessionUid with
    | none =>
        { service := s, ok := false, calls := [], notes := [],
          msgs := ["Failed to start timer"] }
    | some uid =>
        match env.createResult with
        | Except.error _ =>
            { service := s, ok := false, calls := [BackendCall.createEntry],
              notes := [], msgs := ["Failed to start timer"] }
        | Except.ok entryId =>
            match env.startResult with
            | Except.error _ =>
                { service := s, ok := false,
                  calls := [BackendCall.createEntry, BackendCall.timerStart],
                  notes := [], msgs := ["Failed to start timer"] }
            | Except.ok _ =>
                let en : TimesheetEntry :=
                  { id := some entryId, name := name, date := env.today,
                    unit_amount := 0, project_id := projectId, task_id := taskId,
                    employee_id := none, account_id := none, user_id := some uid }
                let st : TimerState :=
                  { isRunning := true, startTime := some env.now,
                    entryId := some entryId, entry := some en }
                { service := startUpdateInterval (saveState { s with state := st }),
                  ok := true,
                  calls := [BackendCall.createEntry, BackendCall.timerStart],
                  notes := [st], msgs := [] }

/-- The environment a `stopTimer` call runs in: the results of the remote
stop and the re-read of the entry, and `Date.now()` when the elapsed hours
are computed. -/
structure StopEnv where
  stopResult : Except Unit Bool
  readResult : Except Unit (Option TimesheetEntry)
  now : ℚ
deriving Repr

/-- What a `stopTimer` call produces; `discrepancyNote` records whether the
"Odoo minimum duration applied" note was appended to the stop message. -/
structure StopOut where
  service : TimerService
  ok : Bool
  calls : List BackendCall
  notes : List TimerState
  discrepancyNote : Bool
  msgs : List String
deriving DecidableEq, Repr

/-- `stopTimer` (timerService.ts lines 90-134). Rejects unless running with
a truthy entryId; otherwise stops the remote timer, re-reads the entry,
compares the server duration with the locally elapsed hours (note iff both
are positive and they differ by more than 0.1h, lines 105-113), installs the
stopped state, clears the snapshot, cancels the interval and fans out. A
thrown error leaves the service unchanged and returns `false`. -/
def stopTimer (s : TimerService) (env : StopEnv) : StopOut :=
  if ¬ (s.state.isRunning = true ∧ jsTruthyNum s.state.entryId = true) then
    { service := s, ok := false, calls := [], notes := [],
      discrepancyNote := false, msgs := ["No timer is running"] }
  else
    match env.stopResult with
    | Except.error _ =>
        { service := s, ok := false, calls := [BackendCall.timerStop],
          notes := [], discrepancyNote := false, msgs := ["Failed to stop timer"] }
    | Except.ok _ =>
        match env.readResult with
        | Except.error _ =>
            { service := s, ok := false,
              calls := [BackendCall.timerStop, BackendCall.readEntry],
              notes := [], discrepancyNote := false,
              msgs := ["Failed to stop timer"] }
        | Except.ok updatedEntry =>
            let duration : ℚ := jsOrZero ((updatedEntry.map (fun en => en.unit_amount)).getD 0)
            let actualElapsed : ℚ := getElapsedHours s.state env.now
            let note : Bool :=
              decide (0 < duration ∧ 0 < actualElapsed ∧
                1 / 10 < |duration - actualElapsed|)
            { service := { state := stoppedState, snapshot := emptySnapshot,
                           intervalActive := false },
              ok := true,
              calls := [BackendCall.timerStop, BackendCall.readEntry],
              notes := [stoppedState], discrepancyNote := note,
              msgs := ["Timer stopped"] }

/-- What `refreshState` / `loadState` produce besides the service. -/
structure RefreshOut where
  service : TimerService
  calls : List BackendCall
  notes : List TimerState
deriving DecidableEq, Repr

/-- The branch of `refreshState` taken when the oracle answer is not a
truthy running timer (timerService.ts lines 163-177): clear everything if
currently running, otherwise do nothing. -/
def refreshNoTimer (s : TimerService) : TimerService × List TimerState :=
  if s.state.isRunning then
    (stopUpdateInterval (clearState { s with state := stoppedState }),
     [stoppedState])
  else (s, [])

/-- The running `TimerState` the truthy branch of `refreshState` installs
(timerService.ts lines 145-156): `startTime` is back-computed as
`Date.now() - (running_seconds - unit_amount*3600) * 1000` milliseconds,
with the source's `|| 0` and ternary on the two reported numbers, and the
whole `runningTimer` object is stored as the entry. -/
def refreshRunningState (rt : RunningTimer) (now : ℚ) : TimerState :=
  { isRunning := true,
    startTime := some (now -
      (jsOrZero rt.running_seconds -
        (if rt.unit_amount = 0 then 0 else rt.unit_amount * 3600)) * 1000),
    entryId := rt.id,
    entry := some rt.toEntry }

/-- `refreshState` (timerService.ts lines 136-183). Cancels the interval,
queries the backend's running timer; a truthy answer installs a running
state whose `startTime` is back-computed from `running_seconds` and
`unit_amount` (lines 145-149), persists, re-schedules the interval and fans
out; otherwise the running state, if any, is cleared; an oracle error leaves
the state untouched with the interval cancelled (lines 178-182). -/
def refreshState (s : TimerService) (oracle : Except Unit (Option RunningTimer))
    (now : ℚ) : RefreshOut :=
  let s0 := stopUpdateInterval s
  match oracle with
  | Except.error _ =>
      { service := stopUpdateInterval s0, calls := [BackendCall.queryRunning],
        notes := [] }
  | Except.ok rtOpt =>
      match rtOpt with
      | some rt =>
          if jsTruthyNum rt.id then
            { service := startUpdateInterval
                (saveState { s0 with state := refreshRunningState rt now }),
              calls := [BackendCall.queryRunning],
              notes := [refreshRunningState rt now] }
          else
            { service := (refreshNoTimer s0).1, calls := [BackendCall.queryRunning],
              notes := (refreshNoTimer s0).2 }
      | none =>
          { service := (refreshNoTimer s0).1, calls := [BackendCall.queryRunning],
            notes := (refreshNoTimer s0).2 }

/-- What a `loadState` call produces. -/
structure LoadOut where
  service : TimerService
  ok : Bool
  calls : List BackendCall
  notes : List TimerState
deriving DecidableEq, Repr

/-- Does `runningTimer && runningTimer.id === entryId` hold
(timerService.ts line 264)? -/
def rtMatches (rtOpt : Option RunningTimer) (eid : Nat) : Bool :=
  match rtOpt with
  | none => false
  | some rt => rt.id == some eid

/-- `loadState` (timerService.ts lines 249-291). With a truthy persisted
entryId and startTime it asks the oracle: on a matching running entry it
restores the running state from the persisted values (the persisted
startTime verbatim, entry rebuilt from the snapshot fields), schedules the
interval, fans out and returns `true`; on a non-matching answer it returns
`false` without touching anything; if the oracle throws, the catch clears
the snapshot and `false` is returned. Without a truthy snapshot it returns
`false` immediately. -/
def loadState (s : TimerService) (oracle : Except Unit (Option RunningTimer))
    (today : String) : LoadOut :=
  match s.snapshot.entryId, s.snapshot.startTime with
  | some eid, some ms =>
      if eid ≠ 0 ∧ ms ≠ 0 then
        match oracle with
        | Except.error _ =>
            { service := clearState s, ok := false,
              calls := [BackendCall.queryRunning], notes := [] }
        | Except.ok rtOpt =>
            if rtMatches rtOpt eid then
              let en : TimesheetEntry :=
                { id := some eid, name := s.snapshot.description.getD "",
                  date := today, unit_amount := 0,
                  project_id := s.snapshot.projectId,
                  task_id := s.snapshot.taskId,
                  employee_id := none, account_id := none, user_id := none }
              let st : TimerState :=
                { isRunning := true, startTime := some ms,
                  entryId := some eid, entry := some en }
              { service := startUpdateInterval { s with state := st },
                ok := true, calls := [BackendCall.queryRunning], notes := [st] }
            else
              { service := s, ok := false,
                calls := [BackendCall.queryRunning], notes := [] }
      else { service := s, ok := false, calls := [], notes := [] }
  | _, _ => { service := s, ok := false, calls := [], notes := [] }

/-- What one firing of the one-second interval produces. -/
structure TickOut where
  service : TimerService
  notes : List TimerState
deriving DecidableEq, Repr

/-- One firing of the `setInterval` callback (timerService.ts lines
219-226): it can only fire while an interval is scheduled; it re-publishes
the state if still running with a start time, and otherwise defensively
cancels itself. -/
def intervalTick (s : TimerService) : TickOut :=
  if s.intervalActive then
    if s.state.isRunning = true ∧ s.state.startTime ≠ none then
      { service := s, notes := [s.state] }
    else
      { service := stopUpdateInterval s, notes := [] }
  else { service := s, notes := [] }

/-- `dispose` (timerService.ts lines 309-312). -/
def dispose (s : TimerService) : TimerService :=
  stopUpdateInterval s

/-!
## Object identity: what a callback receives vs what `getState` returns

JavaScript passes objects by reference. `notifyStateUpdate`
(timerService.ts line 37) invokes each callback as `callback(this.state)`:
the argument is the very object the engine owns. `getState` (line 186)
instead evaluates `{ ...this.state }`: a freshly allocated shallow copy. To
reason about mutation through these two, objects live in a heap addressed
by references. -/

/-- A heap of `TimerState` objects: `mem r` is the object at reference `r`,
references below `next` are allocated. -/
structure JsHeap where
  mem : Nat → TimerState
  next : Nat

/-- A field assignment performed on the object behind reference `r`
(e.g. `arg.isRunning = false` inside an observer callback). -/
def heapWrite (h : JsHeap) (r : Nat) (f : TimerState → TimerState) : JsHeap :=
  { h with mem := fun i => if i = r then f (h.mem r) else h.mem i }

/-- The reference `notifyStateUpdate` hands to every callback: `this.state`
itself (timerService.ts line 37). -/
def notifyCallbackArg (stateRef : Nat) : Nat :=
  stateRef

/-- The reference `getState` returns: `{ ...this.state }` allocates a fresh
object holding a copy of the current state (timerService.ts line 186). -/
def getStateCopy (h : JsHeap) (stateRef : Nat) : JsHeap × Nat :=
  ({ mem := fun i => if i = h.next then h.mem stateRef else h.mem i,
     next := h.next + 1 },
   h.next)

/-!
## The state invariant and reachability -/

/-- The invariant claimed of every reachable `TimerState`: running iff both
`startTime` and `entryId` are non-null, and a stopped state has all three
object fields null. -/
def stateInv (st : TimerState) : Prop :=
  (st.isRunning = true ↔ (st.startTime ≠ none ∧ st.entryId ≠ none)) ∧
  (st.isRunning = false → st.startTime = none ∧ st.entryId = none ∧ st.entry = none)

instance (st : TimerState) : Decidable (stateInv st) := by
  unfold stateInv; infer_instance

/-- The services reachable by any sequence of engine operations from a
freshly constructed service (over any persisted workspace content and any
backend behaviour). -/
inductive Reachable : TimerService → Prop where
  | init (snap : Snapshot) : Reachable (mkTimerService snap)
  | start (s : TimerService) (env : StartEnv) (name : String)
      (projectId taskId : Option Nat) : Reachable s →
      Reachable (startTimer s env name projectId taskId).service
  | stop (s : TimerService) (env : StopEnv) : Reachable s →
      Reachable (stopTimer s env).service
  | refresh (s : TimerService) (oracle : Except Unit (Option RunningTimer))
      (now : ℚ) : Reachable s → Reachable (refreshState s oracle now).service
  | load (s : TimerService) (oracle : Except Unit (Option RunningTimer))
      (today : String) : Reachable s → Reachable (loadState s oracle today).service
  | tickStep (s : TimerService) : Reachable s → Reachable (intervalTick s).service
  | disposeStep (s : TimerService) : Reachable s → Reachable (dispose s)

theorem startUpdateInterval_state (s : TimerService) :
    (startUpdateInterval s).state = s.state := rfl

theorem saveState_state (s : TimerService) : (saveState s).state = s.state := rfl

theorem clearState_state (s : TimerService) : (clearState s).state = s.state := rfl

theorem stopUpdateInterval_state (s : TimerService) :
    (stopUpdateInterval s).state = s.state := rfl

theorem stateInv_stoppedState : stateInv stoppedState := by decide

theorem startTimer_inv (s : TimerService) (env : StartEnv) (name : String)
    (projectId taskId : Option Nat) (h : stateInv s.state) :
    stateInv (startTimer s env name projectId taskId).service.state := by
  unfold startTimer
  split
  · exact h
  · split
    · exact h
    · split
      · exact h
      · split
        · exact h
        · simp [startUpdateInterval_state, saveState_state, stateInv]

theorem stopTimer_inv (s : TimerService) (env : StopEnv) (h : stateInv s.state) :
    stateInv (stopTimer s env).service.state := by
  unfold stopTimer
  split
  · exact h
  · split
    · exact h
    · split
      · exact h
      · exact stateInv_stoppedState

theorem refreshNoTimer_inv (s : TimerService) (h : stateInv s.state) :
    stateInv (refreshNoTimer s).1.state := by
  unfold refreshNoTimer
  split
  · exact stateInv_stoppedState
  · exact h

theorem refreshState_inv (s : TimerService)
    (oracle : Except Unit (Option RunningTimer)) (now : ℚ)
    (h : stateInv s.state) : stateInv (refreshState s oracle now).service.state := by
  unfold refreshState
  split
  · exact h
  · split
    · split
      · rename_i rt hid
        constructor
        · simp [startUpdateInterval_state, saveState_state, refreshRunningState]
          cases hrtid : rt.id with
          | none => rw [hrtid] at hid; simp [jsTruthyNum] at hid
          | some n => simp
        · simp [startUpdateInterval_state, saveState_state, refreshRunningState]
      · exact refreshNoTimer_inv _ h
    · exact refreshNoTimer_inv _ h

theorem loadState_inv (s : TimerService)
    (oracle : Except Unit (Option RunningTimer)) (today : String)
    (h : stateInv s.state) : stateInv (loadState s oracle today).service.state := by
  unfold loadState
  split
  · split
    · split
      · exact h
      · split
        · simp [startUpdateInterval_state, stateInv]
        · exact h
    · exact h
  · exact h

theorem intervalTick_inv (s : TimerService) (h : stateInv s.state) :
    stateInv (intervalTick s).service.state := by
  unfold intervalTick
  split
  · split
    · exact h
    · exact h
  · exact h


theorem jsOrZero_eq (q : ℚ) : jsOrZero q = q := by
  unfold jsOrZero
  split
  · rename_i h; exact h.symm
  · rfl

theorem ternary_unit_amount (q : ℚ) :
    (if q = 0 then (0 : ℚ) else q * 3600) = q * 3600 := by
  split
  · rename_i h; rw [h]; ring
  · rfl

/-!
## The claims -/

/-- C1: for every reachable `TimerState` produced by any sequence of engine
operations (construction, start, stop, reconcile/refreshState, load — plus
ticks and dispose), `isRunning` is true iff `startTime` and `entryId` are
both non-null, and `isRunning = false` implies `startTime`, `entryId` and
`entry` are all null. -/
theorem reachable_state_invariant (s : TimerService) (h : Reachable s) :
    stateInv s.state := by
  induction h with
  | init snap => exact stateInv_stoppedState
  | start s env name projectId taskId _ ih => exact startTimer_inv s env name projectId taskId ih
  | stop s env _ ih => exact stopTimer_inv s env ih
  | refresh s oracle now _ ih => exact refreshState_inv s oracle now ih
  | load s oracle today _ ih => exact loadState_inv s oracle today ih
  | tickStep s _ ih => exact intervalTick_inv s ih
  | disposeStep s _ ih => exact ih

theorem reachable_state_invariant_witness :
    stateInv (startTimer (mkTimerService emptySnapshot)
      ⟨some 2, Except.ok 7, Except.ok true, 1000, "2026-01-01"⟩
      "Task A" (some 5) (some 10)).service.state :=
  reachable_state_invariant _
    (Reachable.start _ _ _ _ _ (Reachable.init emptySnapshot))

/-- C2: when `refreshState` receives a running timer with a truthy id from
the backend, the installed state is running with `startTime` back-computed
as `now − (running_seconds − unit_amount·3600)·1000` milliseconds, i.e.
`now` minus the reported elapsed seconds net of the already-accumulated
hours, and it tracks the reported entry id. -/
theorem refreshState_backcomputes_startTime (s : TimerService)
    (rt : RunningTimer) (now : ℚ) (hid : jsTruthyNum rt.id = true) :
    (refreshState s (Except.ok (some rt)) now).service.state.startTime
      = some (now - (rt.running_seconds - rt.unit_amount * 3600) * 1000) ∧
    (refreshState s (Except.ok (some rt)) now).service.state.isRunning = true ∧
    (refreshState s (Except.ok (some rt)) now).service.state.entryId = rt.id := by
  unfold refreshState
  simp [hid, startUpdateInterval_state, saveState_state, refreshRunningState,
    jsOrZero_eq, ternary_unit_amount]

theorem refreshState_backcomputes_startTime_witness :
    jsTruthyNum (some 9) = true ∧
    (refreshState (mkTimerService emptySnapshot)
        (Except.ok (some ⟨some 9, "T", "2026-01-01", 1/2, some 5, some 10,
          none, none, none, 4000⟩)) 10000000).service.state.startTime
      = some 7800000 := by
  refine ⟨rfl, ?_⟩
  have h := refreshState_backcomputes_startTime (mkTimerService emptySnapshot)
    ⟨some 9, "T", "2026-01-01", 1/2, some 5, some 10, none, none, none, 4000⟩
    10000000 rfl
  rw [h.1]
  norm_num


theorem refreshState_pair_error (s : TimerService) (u : Unit) (now : ℚ) :
    (refreshState s (Except.error u) now).service.state = s.state ∧
    (refreshState s (Except.error u) now).service.snapshot = s.snapshot ∧
    (refreshState s (Except.error u) now).notes = [] :=
  ⟨rfl, rfl, rfl⟩

theorem refreshState_pair_none (s : TimerService) (now : ℚ) :
    (refreshState s (Except.ok none) now).service.state
      = (if s.state.isRunning then stoppedState else s.state) ∧
    (refreshState s (Except.ok none) now).service.snapshot
      = (if s.state.isRunning then emptySnapshot else s.snapshot) ∧
    (refreshState s (Except.ok none) now).notes
      = (if s.state.isRunning then [stoppedState] else []) := by
  by_cases hb : s.state.isRunning = true
  · simp [refreshState, refreshNoTimer, stopUpdateInterval, clearState, hb]
  · simp only [Bool.not_eq_true] at hb
    simp [refreshState, refreshNoTimer, stopUpdateInterval, clearState, hb]

theorem refreshState_pair_some (s : TimerService) (rt : RunningTimer) (now : ℚ) :
    (refreshState s (Except.ok (some rt)) now).service.state
      = (if jsTruthyNum rt.id then refreshRunningState rt now
         else if s.state.isRunning then stoppedState else s.state) ∧
    (refreshState s (Except.ok (some rt)) now).service.snapshot
      = (if jsTruthyNum rt.id then snapshotOf (refreshRunningState rt now)
         else if s.state.isRunning then emptySnapshot else s.snapshot) := by
  by_cases hid : jsTruthyNum rt.id = true
  · simp [refreshState, refreshNoTimer, stopUpdateInterval, saveState,
      startUpdateInterval, hid]
  · simp only [Bool.not_eq_true] at hid
    by_cases hb : s.state.isRunning = true
    · simp [refreshState, refreshNoTimer, stopUpdateInterval, clearState, hid, hb]
    · simp only [Bool.not_eq_true] at hb
      simp [refreshState, refreshNoTimer, stopUpdateInterval, clearState, hid, hb]

/-- C3 counterexample: with the service already stopped and the backend
reporting no running timer, `refreshState` performs no fan-out at all — its
publication list is empty, because `notifyStateUpdate` in the no-timer
branch sits inside `if (this.state.isRunning)` (timerService.ts lines
163-177). With any registered observer, the claimed re-execution of "full
fan-out to every registered observer" therefore does not happen. -/
theorem refreshState_stopped_counterexample :
    (refreshState (mkTimerService emptySnapshot) (Except.ok none) 0).notes = []
      ∧ (mkTimerService emptySnapshot).state.isRunning = false :=
  ⟨rfl, rfl⟩

/-- C3 amended: `refreshState` is idempotent — a second call with the same
backend answer and the same clock reading produces the same `TimerState`,
and the persisted snapshot does not change after the first call; but when
the local state is already stopped and the backend reports no running
timer, the call invokes no observer callback at all (its publication list
is empty), rather than re-executing fan-out. -/
theorem refreshState_idempotent (s : TimerService)
    (oracle : Except Unit (Option RunningTimer)) (now : ℚ) :
    ((refreshState (refreshState s oracle now).service oracle now).service.state
        = (refreshState s oracle now).service.state) ∧
    ((refreshState (refreshState s oracle now).service oracle now).service.snapshot
        = (refreshState s oracle now).service.snapshot) ∧
    (s.state.isRunning = false →
      (refreshState s (Except.ok none) now).notes = []) := by
  refine ⟨?_, ?_, ?_⟩
  · rcases oracle with u | rtOpt
    · exact (refreshState_pair_error _ u now).1
    · rcases rtOpt with _ | rt
      · rw [(refreshState_pair_none _ now).1, (refreshState_pair_none s now).1]
        by_cases hb : s.state.isRunning = true
        · simp [hb, stoppedState]
        · simp only [Bool.not_eq_true] at hb
          simp [hb]
      · rw [(refreshState_pair_some _ rt now).1, (refreshState_pair_some s rt now).1]
        by_cases hid : jsTruthyNum rt.id = true
        · simp [hid]
        · simp only [Bool.not_eq_true] at hid
          by_cases hb : s.state.isRunning = true
          · simp [hid, hb, stoppedState]
          · simp only [Bool.not_eq_true] at hb
            simp [hid, hb]
  · rcases oracle with u | rtOpt
    · exact (refreshState_pair_error _ u now).2.1
    · rcases rtOpt with _ | rt
      · rw [(refreshState_pair_none _ now).2.1, (refreshState_pair_none s now).1,
          (refreshState_pair_none s now).2.1]
        by_cases hb : s.state.isRunning = true
        · simp [hb, stoppedState]
        · simp only [Bool.not_eq_true] at hb
          simp [hb]
      · rw [(refreshState_pair_some _ rt now).2, (refreshState_pair_some s rt now).1,
          (refreshState_pair_some s rt now).2]
        by_cases hid : jsTruthyNum rt.id = true
        · simp [hid]
        · simp only [Bool.not_eq_true] at hid
          by_cases hb : s.state.isRunning = true
          · simp [hid, hb, stoppedState]
          · simp only [Bool.not_eq_true] at hb
            simp [hid, hb]
  · intro hstop
    rw [(refreshState_pair_none s now).2.2, hstop]
    rfl

theorem refreshState_idempotent_witness :
    ((refreshState (refreshState (mkTimerService emptySnapshot)
          (Except.ok none) 5).service (Except.ok none) 5).service.state
        = (refreshState (mkTimerService emptySnapshot)
            (Except.ok none) 5).service.state) ∧
    (refreshState (mkTimerService emptySnapshot) (Except.ok none) 5).notes = [] :=
  ⟨(refreshState_idempotent (mkTimerService emptySnapshot) (Except.ok none) 5).1,
   (refreshState_idempotent (mkTimerService emptySnapshot) (Except.ok none) 5).2.2 rfl⟩

/-- C4 counterexample: with a persisted snapshot for entry 7 and the backend
oracle reporting no running timer, `loadState` returns `false` but leaves
the stale snapshot in place — the snapshot is untouched and differs from
the cleared one. `clearState` is reached only from the `catch` block
(timerService.ts lines 284-287); the mismatch path (line 264 test false)
falls through to `return false` without clearing. -/
theorem loadState_mismatch_counterexample :
    (loadState ⟨stoppedState, ⟨some 7, some 1000, some 5, some 10, some "Task A"⟩,
        false⟩ (Except.ok none) "2026-01-02").ok = false ∧
    (loadState ⟨stoppedState, ⟨some 7, some 1000, some 5, some 10, some "Task A"⟩,
        false⟩ (Except.ok none) "2026-01-02").service.snapshot
      = ⟨some 7, some 1000, some 5, some 10, some "Task A"⟩ ∧
    (⟨some 7, some 1000, some 5, some 10, some "Task A"⟩ : Snapshot)
      ≠ emptySnapshot := by
  refine ⟨rfl, rfl, ?_⟩
  decide

/-- C4 amended: with a truthy persisted snapshot, `loadState` clears the
stale snapshot only when the running-timer oracle call fails (the `catch`
path), returning "nothing to restore" with the in-memory state unchanged;
when the oracle succeeds but reports no timer or a different entry id, it
returns "nothing to restore" leaving both the in-memory state and the
persisted snapshot unchanged. -/
theorem loadState_stale (s : TimerService) (today : String) (eid : Nat) (ms : ℚ)
    (h1 : s.snapshot.entryId = some eid) (h2 : s.snapshot.startTime = some ms)
    (h3 : eid ≠ 0) (h4 : ms ≠ 0) :
    ((loadState s (Except.error ()) today).service = clearState s ∧
      (loadState s (Except.error ()) today).service.state = s.state ∧
      (loadState s (Except.error ()) today).ok = false) ∧
    (∀ rtOpt : Option RunningTimer, rtMatches rtOpt eid = false →
      (loadState s (Except.ok rtOpt) today).service = s ∧
      (loadState s (Except.ok rtOpt) today).ok = false) := by
  constructor
  · unfold loadState
    rw [h1, h2]
    simp [h3, h4, clearState]
  · intro rtOpt hm
    unfold loadState
    rw [h1, h2]
    simp [h3, h4, hm]

theorem loadState_stale_witness :
    ((loadState ⟨stoppedState, ⟨some 8, some 2000, none, none, none⟩, false⟩
        (Except.error ()) "2026-01-02").service.snapshot = emptySnapshot ∧
      (loadState ⟨stoppedState, ⟨some 8, some 2000, none, none, none⟩, false⟩
        (Except.error ()) "2026-01-02").ok = false) ∧
    ((loadState ⟨stoppedState, ⟨some 8, some 2000, none, none, none⟩, false⟩
        (Except.ok none) "2026-01-02").service
      = ⟨stoppedState, ⟨some 8, some 2000, none, none, none⟩, false⟩) := by
  have h := loadState_stale ⟨stoppedState, ⟨some 8, some 2000, none, none, none⟩,
    false⟩ "2026-01-02" 8 2000 rfl rfl (by decide) (by decide)
  exact ⟨⟨congrArg TimerService.snapshot h.1.1, h.1.2.2⟩, (h.2 none rfl).1⟩

/-- C5: round-trip through persistence. A successful
`start(name, projectId=5, taskId=10)` installs a running state and persists
its snapshot; a `load()` on a freshly constructed service carrying that
persisted snapshot (a simulated restart), whose oracle confirms the same
entry id still running, restores a running state with the identical
entryId, the persisted `startTime` verbatim (not recomputed), projectId 5
and taskId 10. Hypotheses: the service is not already running, the backend
id and the clock reading are non-zero (JS-truthy), and the oracle's
reported timer carries the same id. -/
theorem start_load_roundtrip (s : TimerService) (name today today2 : String)
    (uid eid : Nat) (now : ℚ) (rt : RunningTimer)
    (hrun : s.state.isRunning = false) (heid : eid ≠ 0) (hnow : now ≠ 0)
    (hrt : rt.id = some eid) :
    (startTimer s ⟨some uid, Except.ok eid, Except.ok true, now, today⟩
        name (some 5) (some 10)).ok = true ∧
    (loadState (mkTimerService (startTimer s
          ⟨some uid, Except.ok eid, Except.ok true, now, today⟩
          name (some 5) (some 10)).service.snapshot)
        (Except.ok (some rt)) today2).ok = true ∧
    (loadState (mkTimerService (startTimer s
          ⟨some uid, Except.ok eid, Except.ok true, now, today⟩
          name (some 5) (some 10)).service.snapshot)
        (Except.ok (some rt)) today2).service.state.isRunning = true ∧
    (loadState (mkTimerService (startTimer s
          ⟨some uid, Except.ok eid, Except.ok true, now, today⟩
          name (some 5) (some 10)).service.snapshot)
        (Except.ok (some rt)) today2).service.state.entryId = some eid ∧
    (loadState (mkTimerService (startTimer s
          ⟨some uid, Except.ok eid, Except.ok true, now, today⟩
          name (some 5) (some 10)).service.snapshot)
        (Except.ok (some rt)) today2).service.state.startTime = some now ∧
    (loadState (mkTimerService (startTimer s
          ⟨some uid, Except.ok eid, Except.ok true, now, today⟩
          name (some 5) (some 10)).service.snapshot)
        (Except.ok (some rt)) today2).service.state.entry.bind
        (fun en => en.project_id) = some 5 ∧
    (loadState (mkTimerService (startTimer s
          ⟨some uid, Except.ok eid, Except.ok true, now, today⟩
          name (some 5) (some 10)).service.snapshot)
        (Except.ok (some rt)) today2).service.state.entry.bind
        (fun en => en.task_id) = some 10 := by
  have hsnap : (startTimer s ⟨some uid, Except.ok eid, Except.ok true, now, today⟩
      name (some 5) (some 10)).service.snapshot
      = ⟨some eid, some now, some 5, some 10, some name⟩ := by
    unfold startTimer
    simp [hrun, saveState, startUpdateInterval, snapshotOf]
  have hok : (startTimer s ⟨some uid, Except.ok eid, Except.ok true, now, today⟩
      name (some 5) (some 10)).ok = true := by
    unfold startTimer
    simp [hrun]
  rw [hsnap]
  refine ⟨hok, ?_⟩
  unfold loadState mkTimerService
  simp [heid, hnow, rtMatches, hrt, startUpdateInterval]

theorem start_load_roundtrip_witness :
    (startTimer (mkTimerService emptySnapshot)
        ⟨some 2, Except.ok 7, Except.ok true, 1700000000000, "2026-01-01"⟩
        "Task A" (some 5) (some 10)).ok = true ∧
    (loadState (mkTimerService (startTimer (mkTimerService emptySnapshot)
          ⟨some 2, Except.ok 7, Except.ok true, 1700000000000, "2026-01-01"⟩
          "Task A" (some 5) (some 10)).service.snapshot)
        (Except.ok (some ⟨some 7, "Task A", "2026-01-02", 1/100, some 5, some 10,
          none, none, none, 120⟩)) "2026-01-02").service.state.startTime
      = some 1700000000000 :=
  ⟨(start_load_roundtrip (mkTimerService emptySnapshot) "Task A" "2026-01-01"
      "2026-01-02" 2 7 1700000000000
      ⟨some 7, "Task A", "2026-01-02", 1/100, some 5, some 10, none, none, none, 120⟩
      rfl (by decide) (by norm_num) rfl).1,
   (start_load_roundtrip (mkTimerService emptySnapshot) "Task A" "2026-01-01"
      "2026-01-02" 2 7 1700000000000
      ⟨some 7, "Task A", "2026-01-02", 1/100, some 5, some 10, none, none, none, 120⟩
      rfl (by decide) (by norm_num) rfl).2.2.2.2.1⟩


/-- C6 counterexample: start at t0 = 0, stop at t0 + 40s (now = 40000 ms),
backend re-read reporting `unit_amount = 0.0167` hours. The stop succeeds,
but no discrepancy note is produced: `|0.0167 − 40000/3600000 h| = 503/90000
≈ 0.0056` does not exceed the 0.1 tolerance (timerService.ts line 110), so
the claim's assertion that in this scenario the spec's stated outcome (a
note must be reported) holds is false on the code. -/
theorem stopTimer_no_note_counterexample :
    (stopTimer ⟨⟨true, some 0, some 7,
        some ⟨some 7, "Task A", "2026-01-01", 0, some 5, some 10, none, none, none⟩⟩,
        emptySnapshot, true⟩
      ⟨Except.ok true,
        Except.ok (some ⟨some 7, "Task A", "2026-01-01", 167/10000, some 5, some 10,
          none, none, none⟩), 40000⟩).ok = true ∧
    (stopTimer ⟨⟨true, some 0, some 7,
        some ⟨some 7, "Task A", "2026-01-01", 0, some 5, some 10, none, none, none⟩⟩,
        emptySnapshot, true⟩
      ⟨Except.ok true,
        Except.ok (some ⟨some 7, "Task A", "2026-01-01", 167/10000, some 5, some 10,
          none, none, none⟩), 40000⟩).discrepancyNote = false := by
  constructor
  · rfl
  · simp only [stopTimer, jsTruthyNum, jsOrZero, getElapsedHours]
    norm_num
    rw [abs_of_nonneg (by norm_num)]
    norm_num

/-- C6 amended: for every successful `stop` whose backend re-read returns an
entry, the discrepancy note is surfaced if and only if the server-reported
duration is positive, the locally observed elapsed hours are positive, and
their absolute difference exceeds the 0.1-hour tolerance (the code demands
all three, timerService.ts line 110 — not merely the difference bound); with
a server-reported 0.5h against ≈0.0167h actually elapsed the note is
produced, while in the 40-second/0.0167h-reported scenario it is not, the
difference being within tolerance. -/
theorem stopTimer_note_iff (s : TimerService) (u : TimesheetEntry) (b : Bool)
    (now : ℚ) (hrun : s.state.isRunning = true)
    (hid : jsTruthyNum s.state.entryId = true) :
    (stopTimer s ⟨Except.ok b, Except.ok (some u), now⟩).ok = true ∧
    ((stopTimer s ⟨Except.ok b, Except.ok (some u), now⟩).discrepancyNote = true ↔
      (0 < u.unit_amount ∧ 0 < getElapsedHours s.state now ∧
        1 / 10 < |u.unit_amount - getElapsedHours s.state now|)) := by
  unfold stopTimer
  simp [hrun, hid, jsOrZero_eq]

theorem stopTimer_note_iff_witness :
    (stopTimer ⟨⟨true, some 0, some 7,
        some ⟨some 7, "Task A", "2026-01-01", 0, some 5, some 10, none, none, none⟩⟩,
        emptySnapshot, true⟩
      ⟨Except.ok true,
        Except.ok (some ⟨some 7, "Task A", "2026-01-01", 1/2, some 5, some 10,
          none, none, none⟩), 60000⟩).discrepancyNote = true :=
  (stopTimer_note_iff ⟨⟨true, some 0, some 7,
      some ⟨some 7, "Task A", "2026-01-01", 0, some 5, some 10, none, none, none⟩⟩,
      emptySnapshot, true⟩
    ⟨some 7, "Task A", "2026-01-01", 1/2, some 5, some 10, none, none, none⟩
    true 60000 rfl rfl).2.mpr
    (by norm_num [getElapsedHours, abs_of_nonneg])

/-- C7: whenever the remote create-record call or the subsequent remote
start-timer call fails, `startTimer` leaves the whole service unchanged
(in-memory state, persisted snapshot and interval), performs no fan-out,
and returns the rejection `false` (the `catch` at timerService.ts lines
84-87). -/
theorem startTimer_failure_no_change (s : TimerService) (env : StartEnv)
    (name : String) (projectId taskId : Option Nat)
    (h : env.createResult = Except.error () ∨ env.startResult = Except.error ()) :
    (startTimer s env name projectId taskId).service = s ∧
    (startTimer s env name projectId taskId).ok = false ∧
    (startTimer s env name projectId taskId).notes = [] := by
  unfold startTimer
  split
  · exact ⟨rfl, rfl, rfl⟩
  · split
    · exact ⟨rfl, rfl, rfl⟩
    · split
      · exact ⟨rfl, rfl, rfl⟩
      · split
        · exact ⟨rfl, rfl, rfl⟩
        · rcases h with h | h <;> simp_all

theorem startTimer_failure_no_change_witness :
    (startTimer (mkTimerService emptySnapshot)
        ⟨some 2, Except.error (), Except.ok true, 1000, "2026-01-01"⟩
        "Task A" (some 5) (some 10)).service = mkTimerService emptySnapshot ∧
    (startTimer (mkTimerService emptySnapshot)
        ⟨some 2, Except.error (), Except.ok true, 1000, "2026-01-01"⟩
        "Task A" (some 5) (some 10)).ok = false :=
  ⟨(startTimer_failure_no_change (mkTimerService emptySnapshot)
      ⟨some 2, Except.error (), Except.ok true, 1000, "2026-01-01"⟩
      "Task A" (some 5) (some 10) (Or.inl rfl)).1,
   (startTimer_failure_no_change (mkTimerService emptySnapshot)
      ⟨some 2, Except.error (), Except.ok true, 1000, "2026-01-01"⟩
      "Task A" (some 5) (some 10) (Or.inl rfl)).2.1⟩

/-- C8: calling `start` while running returns the whole output unchanged:
the service is byte-for-byte the input one, no backend call list, no
persistence change, no fan-out, and the "Timer is already running" warning
is the surfaced rejection (timerService.ts lines 41-44). -/
theorem startTimer_alreadyRunning (s : TimerService) (env : StartEnv)
    (name : String) (projectId taskId : Option Nat)
    (h : s.state.isRunning = true) :
    startTimer s env name projectId taskId =
      { service := s, ok := false, calls := [], notes := [],
        msgs := ["Timer is already running"] } := by
  unfold startTimer
  rw [h]
  rfl

theorem startTimer_alreadyRunning_witness :
    startTimer ⟨⟨true, some 0, some 7,
        some ⟨some 7, "Task A", "2026-01-01", 0, some 5, some 10, none, none, none⟩⟩,
        emptySnapshot, true⟩
      ⟨some 2, Except.ok 9, Except.ok true, 1000, "2026-01-01"⟩
      "Task B" (some 6) none =
      { service := ⟨⟨true, some 0, some 7,
          some ⟨some 7, "Task A", "2026-01-01", 0, some 5, some 10, none, none, none⟩⟩,
          emptySnapshot, true⟩,
        ok := false, calls := [], notes := [],
        msgs := ["Timer is already running"] } :=
  startTimer_alreadyRunning _ _ _ _ _ rfl

/-- C9 counterexample: an observer that performs
`arg.isRunning = false` on its callback argument does change the
engine-owned state: `notifyStateUpdate` passes `this.state` itself
(timerService.ts line 37), so after the mutation the object behind the
engine's state reference has `isRunning = false`, although it was running
before. This refutes the claim that no mutation through the callback
argument can change engine-owned state. -/
theorem notify_mutation_counterexample :
    ((heapWrite ⟨fun _ => ⟨true, some 1000, some 7, none⟩, 1⟩
        (notifyCallbackArg 0)
        (fun st => { st with isRunning := false })).mem 0).isRunning = false ∧
    ((⟨fun _ => ⟨true, some 1000, some 7, none⟩, 1⟩ : JsHeap).mem 0).isRunning
      = true :=
  ⟨rfl, rfl⟩

/-- C9 amended: each fan-out invocation passes every callback a reference to
the engine-owned state object itself (no copy is made in
`notifyStateUpdate`), so a mutation an observer performs on the callback
argument is a mutation of the engine-owned state; `getState`, by contrast,
returns a freshly allocated shallow copy, and mutating that copy leaves the
engine-owned state unchanged. -/
theorem notify_aliases_getState_copies (h : JsHeap) (stateRef : Nat)
    (mutate : TimerState → TimerState) (hv : stateRef < h.next) :
    (heapWrite h (notifyCallbackArg stateRef) mutate).mem stateRef
      = mutate (h.mem stateRef) ∧
    (heapWrite (getStateCopy h stateRef).1 (getStateCopy h stateRef).2
        mutate).mem stateRef = h.mem stateRef := by
  constructor
  · simp [heapWrite, notifyCallbackArg]
  · have hne : stateRef ≠ h.next := Nat.ne_of_lt hv
    simp [heapWrite, getStateCopy, hne]

theorem notify_aliases_getState_copies_witness :
    (heapWrite ⟨fun _ => ⟨true, some 1000, some 7, none⟩, 1⟩
        (notifyCallbackArg 0)
        (fun st => { st with isRunning := false })).mem 0
      = ⟨false, some 1000, some 7, none⟩ ∧
    (heapWrite (getStateCopy ⟨fun _ => ⟨true, some 1000, some 7, none⟩, 1⟩ 0).1
        (getStateCopy ⟨fun _ => ⟨true, some 1000, some 7, none⟩, 1⟩ 0).2
        (fun st => { st with isRunning := false })).mem 0
      = ⟨true, some 1000, some 7, none⟩ :=
  notify_aliases_getState_copies ⟨fun _ => ⟨true, some 1000, some 7, none⟩, 1⟩ 0
    (fun st => { st with isRunning := false }) (by decide)

/-- C10: if `refreshState` runs while the state is running and the backend
query fails, the in-memory `TimerState` is unchanged (still running), but
the one-second interval — cancelled at the top of `refreshState` (line 139)
and again in the `catch` (line 181) — is left unscheduled, so a tick
produces no observer notification and changes nothing, until some later
operation re-enters the running state. -/
theorem refreshState_error_keeps_running_no_tick (s : TimerService) (now : ℚ)
    (h : s.state.isRunning = true) :
    (refreshState s (Except.error ()) now).service.state = s.state ∧
    (refreshState s (Except.error ()) now).service.state.isRunning = true ∧
    (refreshState s (Except.error ()) now).service.intervalActive = false ∧
    (refreshState s (Except.error ()) now).notes = [] ∧
    (intervalTick (refreshState s (Except.error ()) now).service).service
      = (refreshState s (Except.error ()) now).service ∧
    (intervalTick (refreshState s (Except.error ()) now).service).notes = [] := by
  refine ⟨rfl, h, rfl, rfl, ?_, ?_⟩
  · unfold intervalTick
    rfl
  · unfold intervalTick
    rfl

theorem refreshState_error_keeps_running_no_tick_witness :
    (refreshState ⟨⟨true, some 0, some 7,
        some ⟨some 7, "Task A", "2026-01-01", 0, some 5, some 10, none, none, none⟩⟩,
        emptySnapshot, true⟩ (Except.error ()) 40000).service.state.isRunning
      = true ∧
    (intervalTick (refreshState ⟨⟨true, some 0, some 7,
        some ⟨some 7, "Task A", "2026-01-01", 0, some 5, some 10, none, none, none⟩⟩,
        emptySnapshot, true⟩ (Except.error ()) 40000).service).notes = [] :=
  ⟨(refreshState_error_keeps_running_no_tick _ 40000 rfl).2.1,
   (refreshState_error_keeps_running_no_tick _ 40000 rfl).2.2.2.2.2⟩
